import Mathlib

/-!
Shallow embedding of the attendance reconciliation logic of the repository.

The repository contains three page variants built around the same data model:

* a scan-log page (first document of part_002) that de-duplicates scans by an
  extracted device id, with a last-payload-and-timestamp debounce guard
  (`parseDeviceIdFromQrPayload`, `handleDecoded`) — modelled in `ScanLog`;
* a name-keyed attendance page without any lock (part_001) that parses scanned
  JSON for a `name`/`deviceId` pair (`handleDecode`, `addEntry`) — modelled in
  `AttV1`;
* a name-keyed attendance page with an organizer PIN lock, a scanner/self mode
  switch and a one-attempt self check-in flag (second document of part_002)
  (`handleDecode`, `handleManualAdd`, `addEntry`) — modelled in `AttV2`.

Host-library calls are embedded as follows: `JSON.parse` outcomes are passed
explicitly as an `Option Jv` argument (`none` models a parse failure); wall
clock readings (`Date.now()`, `new Date().toISOString()`) are explicit
arguments; `localStorage` writes mirror the in-memory state and are not
modelled separately; React state setters become functional state updates, and
the mode-forcing `useEffect` is applied after every event.
-/

/-- JSON-like values, the shape of a successful JSON.parse result. -/
inductive Jv where
| jstr : String → Jv
| jnum : Int → Jv
| jbool : Bool → Jv
| jnull : Jv
| jobj : List (String × Jv) → Jv
| jarr : List Jv → Jv

/-- Own-property lookup on a parsed JSON object. JSON.parse keeps one binding
per key, so an association-list lookup is faithful on its outputs. -/
def lookupKey (fields : List (String × Jv)) (k : String) : Option Jv :=
  (fields.find? (fun p => p.1 == k)).map (fun p => p.2)

/-- Models the host string trim: strip whitespace from both ends. Written
over the character list so that every use evaluates by kernel reduction. -/
def jsTrim (s : String) : String :=
  String.mk (((s.data.dropWhile Char.isWhitespace).reverse.dropWhile
    Char.isWhitespace).reverse)

namespace ScanLog

/-- The ordered candidate key list of parseDeviceIdFromQrPayload for the name
field. The source list contains firstName and lastName as ordinary members. -/
def nameCandidateKeys : List String :=
  ["name", "fullName", "studentName", "student_name", "ownerName", "owner",
   "userName", "username", "firstName", "lastName"]

/-- The extraction loop of parseDeviceIdFromQrPayload: the first key in ks
whose value is a string with nonempty trim yields that trimmed value; a key
that is present with any other value is skipped and the loop continues. -/
def scanNameKeys : List String → List (String × Jv) → Option String
  | [], _ => none
  | k :: ks, fields =>
    match lookupKey fields k with
    | some (Jv.jstr v) =>
      if jsTrim v ≠ "" then some (jsTrim v) else scanNameKeys ks fields
    | _ => scanNameKeys ks fields

/-- The firstName-plus-lastName combination branch, reached only when the key
scan above produced nothing: both values must be strings, they are joined with
one space, and the trimmed result must be nonempty. -/
def combineFirstLast (fields : List (String × Jv)) : Option String :=
  match lookupKey fields "firstName", lookupKey fields "lastName" with
  | some (Jv.jstr f), some (Jv.jstr l) =>
    let combo := jsTrim (f ++ " " ++ l)
    if combo ≠ "" then some combo else none
  | _, _ => none

/-- Full name extraction of parseDeviceIdFromQrPayload: the key scan first,
the combination branch only if the scan found nothing. -/
def extractedName (fields : List (String × Jv)) : Option String :=
  match scanNameKeys nameCandidateKeys fields with
  | some n => some n
  | none => combineFirstLast fields

/-- The ordered candidate key list for the device id field. -/
def deviceCandidateKeys : List String :=
  ["deviceId", "deviceID", "device_id", "id", "device"]

/-- JavaScript truthiness of a JSON value, used by the nested id check. -/
def jvTruthy : Jv → Bool
  | Jv.jstr s => s ≠ ""
  | Jv.jnum n => n ≠ 0
  | Jv.jbool b => b
  | Jv.jnull => false
  | Jv.jobj _ => true
  | Jv.jarr _ => true

/-- JavaScript String(x) conversion for the nested id value. Only string and
number ids occur in payloads; the remaining cases follow the host conventions
coarsely and are unused by the theorems below. -/
def jvToString : Jv → String
  | Jv.jstr s => s
  | Jv.jnum n => toString n
  | Jv.jbool b => if b then "true" else "false"
  | Jv.jnull => "null"
  | Jv.jobj _ => "[object Object]"
  | Jv.jarr _ => ""

/-- The device-id extraction loop: a string value with nonempty trim wins; an
object value with a truthy id field whose stringified trim is nonempty wins;
anything else lets the loop continue with the next candidate key. -/
def scanDeviceKeys : List String → List (String × Jv) → Option String
  | [], _ => none
  | k :: ks, fields =>
    match lookupKey fields k with
    | some (Jv.jstr v) =>
      if (jsTrim v).length > 0 then some (jsTrim v) else scanDeviceKeys ks fields
    | some (Jv.jobj fs) =>
      match lookupKey fs "id" with
      | some idv =>
        if jvTruthy idv then
          if (jsTrim (jvToString idv)).length > 0 then some (jsTrim (jvToString idv))
          else scanDeviceKeys ks fields
        else scanDeviceKeys ks fields
      | none => scanDeviceKeys ks fields
    | _ => scanDeviceKeys ks fields

/-- ASCII lowering, the behaviour of the case-insensitive id regular
expression test on the ASCII key names that occur in payloads. -/
def lowerAscii (s : String) : String := String.mk (s.data.map Char.toLower)

/-- Scans a character list for the consecutive letters i and d. -/
def hasIdChars : List Char → Bool
  | 'i' :: 'd' :: _ => true
  | _ :: rest => hasIdChars rest
  | [] => false

/-- Case-insensitive substring test for the letters id, modelling the test
of the regular expression id with the ignore-case flag. -/
def keyHasId (k : String) : Bool := hasIdChars (lowerAscii k).data

/-- Fallback search over all object entries for a string field whose key name
contains the letters id case-insensitively and whose trim is nonempty. -/
def findIdishField : List (String × Jv) → Option String
  | [] => none
  | (k, v) :: rest =>
    match v with
    | Jv.jstr s =>
      if keyHasId k ∧ jsTrim s ≠ "" then some (jsTrim s) else findIdishField rest
    | _ => findIdishField rest

/-- The normalized result of decoding one QR payload. -/
structure Decoded where
  deviceId : String
  name : Option String
  metadata : Option Jv

/-- Models parseDeviceIdFromQrPayload. The JSON.parse outcome is passed
explicitly: none models a parse failure (the catch branch), and some p models
a successful parse. Non-object parse results behave as objects without own
properties, which the empty field list reproduces. The last resort uses the
trimmed raw payload as the device id. -/
def parseDeviceIdFromQrPayload (payload : String) (parsed : Option Jv) : Decoded :=
  let trimmed := jsTrim payload
  match parsed with
  | none => { deviceId := trimmed, name := none, metadata := none }
  | some p =>
    let fields := match p with | Jv.jobj fs => fs | _ => []
    let extracted := extractedName fields
    match scanDeviceKeys deviceCandidateKeys fields with
    | some d => { deviceId := d, name := extracted, metadata := some p }
    | none =>
      match findIdishField fields with
      | some d => { deviceId := d, name := extracted, metadata := some p }
      | none => { deviceId := trimmed, name := extracted, metadata := some p }

/-- One saved scan of the scan-log page. -/
structure ScannedItem where
  deviceId : String
  rawData : String
  name : Option String
  metadata : Option Jv
  scannedAt : Nat

/-- The reconciliation state of the scan-log page: the saved items plus the
last-seen payload and its arrival time, which implement the debounce guard. -/
structure ScanState where
  scannedItems : List ScannedItem
  lastRaw : String
  lastTime : Nat
  statusMessage : String

/-- The state at mount, before any decode event. -/
def initScanState : ScanState :=
  { scannedItems := [], lastRaw := "", lastTime := 0,
    statusMessage := "Align a QR code within the frame" }

/-- Which branch of handleDecoded ran: the silent debounce discard, the
missing-id rejection, the duplicate rejection, or a successful save. -/
inductive ScanOutcome where
| debounced
| noDeviceId
| duplicate
| saved
deriving DecidableEq

/-- Models handleDecoded: discard silently when the text equals the last seen
payload and arrived within 1500 ms of it; otherwise remember the payload and
time, decode it, and reject a missing or already-present device id, or save. -/
def handleDecoded (s : ScanState) (decodedText : String) (parsed : Option Jv)
    (now : Nat) : ScanState × ScanOutcome :=
  if s.lastRaw = decodedText ∧ now - s.lastTime < 1500 then
    (s, ScanOutcome.debounced)
  else
    let s1 := { s with lastRaw := decodedText, lastTime := now }
    let d := parseDeviceIdFromQrPayload decodedText parsed
    if d.deviceId = "" then
      ({ s1 with statusMessage := "No device id found in QR" }, ScanOutcome.noDeviceId)
    else if s1.scannedItems.any (fun i => i.deviceId == d.deviceId) then
      ({ s1 with statusMessage := "Duplicate ignored: " ++ d.deviceId },
       ScanOutcome.duplicate)
    else
      ({ s1 with
          scannedItems :=
            { deviceId := d.deviceId, rawData := decodedText, name := d.name,
              metadata := d.metadata, scannedAt := now } :: s1.scannedItems,
          statusMessage := "Saved: " ++ d.deviceId },
       ScanOutcome.saved)

/-- One decode callback: the raw text, the JSON.parse outcome for it, and the
arrival time in epoch milliseconds. -/
structure ScanEvent where
  text : String
  parsed : Option Jv
  time : Nat

/-- Feeds a serialized stream of decode events through handleDecoded and
collects the produced outcomes in order. -/
def runScanEvents : ScanState → List ScanEvent → ScanState × List ScanOutcome
  | s, [] => (s, [])
  | s, e :: es =>
    let r := handleDecoded s e.text e.parsed e.time
    let rest := runScanEvents r.1 es
    (rest.1, r.2 :: rest.2)

end ScanLog

/-- One attendance record of the name-keyed pages: the trimmed name, the id of
the device that saved it, and an ISO-8601 timestamp string. -/
structure AttendanceEntry where
  name : String
  deviceId : String
  timestamp : String
deriving DecidableEq

/-- Simple case folding covering the ASCII letters and the Latin-1 uppercase
range (except the multiplication sign), the characters exercised here. -/
def foldChar (c : Char) : Char :=
  if 65 ≤ c.toNat ∧ c.toNat ≤ 90 then Char.ofNat (c.toNat + 32)
  else if 192 ≤ c.toNat ∧ c.toNat ≤ 222 ∧ c.toNat ≠ 215 then Char.ofNat (c.toNat + 32)
  else c

/-- Models localeCompare with sensitivity accent comparing equal to zero:
under that collation strength two strings compare equal exactly when they
differ only in letter case, while base letters and accents stay significant. -/
def localeEqAccent (a b : String) : Bool :=
  a.data.map foldChar == b.data.map foldChar

/-- The admission decision of addEntry: appended, dropped because the trimmed
name is empty, or dropped because an existing name compares equal under the
accent-sensitivity collation. -/
inductive AddResult where
| added
| emptyName
| duplicateName
deriving DecidableEq

/-- The shared body of addEntry in both name-keyed pages: trim the name,
silently drop an empty or duplicate name, otherwise prepend a record carrying
the id of the saving device and the current timestamp. -/
def dedupAdd (entries : List AttendanceEntry) (dev nameRaw now : String) :
    List AttendanceEntry × AddResult :=
  let name := jsTrim nameRaw
  if name = "" then (entries, AddResult.emptyName)
  else if entries.any (fun e => localeEqAccent e.name name) then
    (entries, AddResult.duplicateName)
  else
    ({ name := name, deviceId := dev, timestamp := now } :: entries,
     AddResult.added)

/-- Lexicographic strict comparison of character lists by code point, the
order the host string comparison induces on the ASCII ISO-8601 timestamps. -/
def lexLt : List Char → List Char → Bool
  | [], [] => false
  | [], _ :: _ => true
  | _ :: _, [] => false
  | a :: as, b :: bs =>
    if a.toNat < b.toNat then true
    else if b.toNat < a.toNat then false
    else lexLt as bs

/-- Strict lexicographic comparison of strings. -/
def strLtB (a b : String) : Bool := lexLt a.data b.data

/-- The presentation order: a may come before b exactly when the timestamp of
a is not strictly below the timestamp of b, that is the timestamp of b is at
most the timestamp of a. -/
def tsGe (a b : AttendanceEntry) : Prop := strLtB a.timestamp b.timestamp = false

instance : DecidableRel tsGe :=
  fun a b => inferInstanceAs (Decidable (strLtB a.timestamp b.timestamp = false))

/-- Models sorting a copy of entries with the comparator that compares the
second timestamp against the first: the host sort is stable, and a stable
sort under a total preorder coincides with insertion sort. ISO-8601
timestamps of a common format are ASCII strings on which the host collation
agrees with lexicographic order. -/
def sortedEntries (entries : List AttendanceEntry) : List AttendanceEntry :=
  entries.insertionSort tsGe

namespace AttV1

/-- The reconciliation state of the lock-free attendance page. -/
structure SessionState where
  entries : List AttendanceEntry
  manualName : String
  scanError : Option String
  infoMessage : Option String
  justScanned : Bool
  deviceId : String
deriving DecidableEq

/-- Which branch of the lock-free handleDecode or handleManualAdd ran; noop
is the silent early return of handleManualAdd on a blank input field. -/
inductive Outcome where
| debounced
| noop
| invalidName
| deviceAlready
| ledger (r : AddResult)
deriving DecidableEq

/-- Models addEntry of the lock-free page on the session state. -/
def addEntryR (s : SessionState) (nameRaw now : String) :
    SessionState × AddResult :=
  let r := dedupAdd s.entries s.deviceId nameRaw now
  ({ s with entries := r.1 }, r.2)

/-- Reads a string-valued field of a parsed payload; a missing field, a
non-object payload or a null behaves as the empty string, matching the falsy
branch of the conditional in the source. -/
def jvStrField (p : Jv) (k : String) : String :=
  match p with
  | Jv.jobj fs =>
    match lookupKey fs k with
    | some (Jv.jstr v) => v
    | _ => ""
  | _ => ""

/-- The incoming name of handleDecode: on a parse failure the catch branch
wraps the whole raw text as the name, otherwise the name field is read. -/
def incomingNameOf (result : String) (parsed : Option Jv) : String :=
  jsTrim (match parsed with
    | none => result
    | some p => jvStrField p "name")

/-- The incoming device id of handleDecode: absent on a parse failure. -/
def incomingDeviceIdOf (parsed : Option Jv) : String :=
  jsTrim (match parsed with
    | none => ""
    | some p => jvStrField p "deviceId")

/-- Models handleDecode of the lock-free page: debounce on the timed flag,
clear the messages, parse, reject a missing name, reject a payload whose
device id already appears on a stored record, otherwise delegate to addEntry
with the incoming name. -/
def handleDecode (s : SessionState) (result : String) (parsed : Option Jv)
    (now : String) : SessionState × Outcome :=
  if s.justScanned then (s, Outcome.debounced)
  else
    let s1 := { s with justScanned := true, scanError := none, infoMessage := none }
    let inName := incomingNameOf result parsed
    let inDev := incomingDeviceIdOf parsed
    if inName = "" then
      ({ s1 with scanError := some "QR does not contain a valid name." },
       Outcome.invalidName)
    else if inDev ≠ "" ∧ s1.entries.any (fun e => e.deviceId == inDev) then
      ({ s1 with scanError := some "This device has already checked in." },
       Outcome.deviceAlready)
    else
      let r := addEntryR s1 inName now
      (r.1, Outcome.ledger r.2)

/-- Models handleManualAdd of the lock-free page. -/
def handleManualAdd (s : SessionState) (now : String) :
    SessionState × Outcome :=
  if jsTrim s.manualName = "" then (s, Outcome.noop)
  else
    let r := addEntryR s s.manualName now
    ({ r.1 with manualName := "" }, Outcome.ledger r.2)

end AttV1

namespace AttV2

/-- The two check-in modes of the locked attendance page. -/
inductive Mode where
| scanner
| selfCheck
deriving DecidableEq

/-- The reconciliation state of the locked attendance page: mode, ledger,
manual input, the two message slots, the timed debounce flag, the one-attempt
self check-in flag, the organizer lock, the PIN input and its error slot, and
the persistent id of this device. -/
structure SessionState where
  mode : Mode
  entries : List AttendanceEntry
  manualName : String
  scanError : Option String
  infoMessage : Option String
  justScanned : Bool
  selfAttempted : Bool
  organizerUnlocked : Bool
  pinInput : String
  unlockError : Option String
  deviceId : String
deriving DecidableEq

/-- Which branch of handleDecode or handleManualAdd ran; emptyManual is the
silent early return of handleManualAdd on a blank input field. -/
inductive Outcome where
| debounced
| lockedError
| alreadyCheckedIn
| selfConfirmed
| emptyManual
| ledger (r : AddResult)
deriving DecidableEq

/-- The message set by both handlers when the organizer lock blocks a save. -/
def lockedMessage : String := "Organizer lock is enabled. Unlock to save attendance."

/-- Models addEntry of the locked page on the session state. -/
def addEntryR (s : SessionState) (nameRaw now : String) :
    SessionState × AddResult :=
  let r := dedupAdd s.entries s.deviceId nameRaw now
  ({ s with entries := r.1 }, r.2)

/-- Models handleDecode of the locked page: debounce on the timed flag, clear
the messages, then in self mode either reject an already-attempted device or
flip the attempt flag with a confirmation (never writing the ledger), and in
scanner mode reject when locked, otherwise delegate the raw text to addEntry
without any parsing. -/
def handleDecode (s : SessionState) (result : String) (now : String) :
    SessionState × Outcome :=
  if s.justScanned then (s, Outcome.debounced)
  else
    let s1 := { s with justScanned := true, scanError := none, infoMessage := none }
    match s1.mode with
    | Mode.selfCheck =>
      if s1.selfAttempted then
        ({ s1 with scanError := some "You have already checked in from this device." },
         Outcome.alreadyCheckedIn)
      else
        ({ { s1 with selfAttempted := true } with
            infoMessage := some "Check-in recorded on this device. Please show your QR to the organizer." },
         Outcome.selfConfirmed)
    | Mode.scanner =>
      if s1.organizerUnlocked then
        let r := addEntryR s1 result now
        (r.1, Outcome.ledger r.2)
      else
        ({ s1 with scanError := some lockedMessage }, Outcome.lockedError)

/-- Models handleManualAdd of the locked page: silently ignore a blank input,
reject when locked regardless of mode, otherwise delegate to addEntry and
clear the input field. -/
def handleManualAdd (s : SessionState) (now : String) :
    SessionState × Outcome :=
  if jsTrim s.manualName = "" then (s, Outcome.emptyManual)
  else if s.organizerUnlocked then
    let r := addEntryR s s.manualName now
    ({ r.1 with manualName := "" }, Outcome.ledger r.2)
  else
    ({ s with scanError := some lockedMessage }, Outcome.lockedError)

/-- Models the unlock button: exact equality against the configured PIN. -/
def unlockClick (pin : String) (s : SessionState) : SessionState :=
  if s.pinInput = pin then
    { s with organizerUnlocked := true, unlockError := none }
  else
    { s with unlockError := some "Invalid PIN" }

/-- The user and timer events of the locked page. The scanner radio button is
disabled while the lock is engaged, so selecting scanner mode is a no-op then;
the clear button is likewise disabled while locked. The debounce timeout that
clears the timed flag after 1200 ms is the elapse event. -/
inductive Ev where
| setPin (p : String)
| unlockClick
| selectScanner
| selectSelf
| setManual (t : String)
| manualAdd (now : String)
| scan (raw : String) (now : String)
| clearList
| debounceElapse

/-- Applies one event to the state. -/
def applyEv (pin : String) (ev : Ev) (s : SessionState) : SessionState :=
  match ev with
  | Ev.setPin p => { s with pinInput := p }
  | Ev.unlockClick => unlockClick pin s
  | Ev.selectScanner =>
    if s.organizerUnlocked then { s with mode := Mode.scanner } else s
  | Ev.selectSelf => { s with mode := Mode.selfCheck }
  | Ev.setManual t => { s with manualName := t }
  | Ev.manualAdd now => (handleManualAdd s now).1
  | Ev.scan raw now => (handleDecode s raw now).1
  | Ev.clearList => if s.organizerUnlocked then { s with entries := [] } else s
  | Ev.debounceElapse => { s with justScanned := false }

/-- Models the effect that forces self mode whenever the organizer lock is
engaged while scanner mode is selected. -/
def forceSelfMode (s : SessionState) : SessionState :=
  if ¬ s.organizerUnlocked ∧ s.mode = Mode.scanner then
    { s with mode := Mode.selfCheck }
  else s

/-- One observable step: apply the event, then run the mode-forcing effect,
since effects run after every state change. -/
def stepEv (pin : String) (ev : Ev) (s : SessionState) : SessionState :=
  forceSelfMode (applyEv pin ev s)

/-- The state produced by the initial useState calls, before any effect or
user action has run: scanner mode with the lock engaged. -/
def initState (d : String) : SessionState :=
  { mode := Mode.scanner, entries := [], manualName := "", scanError := none,
    infoMessage := none, justScanned := false, selfAttempted := false,
    organizerUnlocked := false, pinInput := "", unlockError := none,
    deviceId := d }

/-- The states observable after effects settle: the mount state after its
first effect pass, closed under observable steps. -/
inductive Reachable (pin : String) (d : String) : SessionState → Prop where
| init : Reachable pin d (forceSelfMode (initState d))
| step : ∀ s ev, Reachable pin d s → Reachable pin d (stepEv pin ev s)

/-- Runs a list of events through stepEv from a starting state. -/
def runEvs (pin : String) (s : SessionState) (evs : List Ev) : SessionState :=
  evs.foldl (fun st e => stepEv pin e st) s

end AttV2

/-! Helper lemmas shared by several claim theorems. -/

/-- When dedupAdd reports added, the new ledger is the fresh record, carrying
the trimmed name, the id of the saving device and the supplied timestamp,
prepended to the old ledger. -/
theorem dedupAdd_added_eq (entries : List AttendanceEntry) (dev nameRaw now : String)
    (h : (dedupAdd entries dev nameRaw now).2 = AddResult.added) :
    (dedupAdd entries dev nameRaw now).1 =
      { name := jsTrim nameRaw, deviceId := dev, timestamp := now } :: entries := by
  unfold dedupAdd at h ⊢
  by_cases h1 : jsTrim nameRaw = ""
  · simp [h1] at h
  · by_cases h2 : entries.any (fun e => localeEqAccent e.name (jsTrim nameRaw)) = true
    · simp [h1, h2] at h
    · simp [h1, h2]

/-- When dedupAdd does not report added, the ledger is unchanged. -/
theorem dedupAdd_not_added_eq (entries : List AttendanceEntry) (dev nameRaw now : String)
    (h : (dedupAdd entries dev nameRaw now).2 ≠ AddResult.added) :
    (dedupAdd entries dev nameRaw now).1 = entries := by
  unfold dedupAdd at h ⊢
  by_cases h1 : jsTrim nameRaw = ""
  · simp [h1]
  · by_cases h2 : entries.any (fun e => localeEqAccent e.name (jsTrim nameRaw)) = true
    · simp [h1, h2]
    · simp [h1, h2] at h

/-- Every record of a dedupAdd result either is the fresh record or was
already stored. -/
theorem dedupAdd_mem (entries : List AttendanceEntry) (dev nameRaw now : String)
    (e : AttendanceEntry) (he : e ∈ (dedupAdd entries dev nameRaw now).1) :
    e = { name := jsTrim nameRaw, deviceId := dev, timestamp := now } ∨ e ∈ entries := by
  by_cases h : (dedupAdd entries dev nameRaw now).2 = AddResult.added
  · rw [dedupAdd_added_eq entries dev nameRaw now h] at he
    exact List.mem_cons.mp he
  · rw [dedupAdd_not_added_eq entries dev nameRaw now h] at he
    exact Or.inr he

/-! C1 theorems. -/

/-- C1 counterexample: submitting Jose and then JOSÉ appends BOTH records,
because the accent-sensitivity collation distinguishes the accented E, so the
second call is not rejected as a duplicate as the claim states. -/
theorem c1_counterexample :
    (dedupAdd (dedupAdd [] "dev" "Jose" "t1").1 "dev" "JOSÉ" "t2").2 = AddResult.added ∧
    (dedupAdd (dedupAdd [] "dev" "Jose" "t1").1 "dev" "JOSÉ" "t2").1.length = 2 ∧
    AddResult.added ≠ AddResult.duplicateName := by
  decide

/-- C1 (amended): ledger de-duplication is case-insensitive but
accent-SENSITIVE. For a candidate whose trimmed name is nonempty, the submit
decision is duplicateName exactly when some stored name equals the candidate
under the accent-sensitivity collation, which ignores letter case only; in
particular Jose followed by JOSE is rejected while Jose followed by JOSÉ is
not a match of the collation. -/
theorem c1_dedupCaseInsensitiveAccentSensitive :
    (∀ (entries : List AttendanceEntry) (dev nameRaw now : String),
        jsTrim nameRaw ≠ "" →
        ((dedupAdd entries dev nameRaw now).2 = AddResult.duplicateName ↔
          entries.any (fun e => localeEqAccent e.name (jsTrim nameRaw)) = true)) ∧
    localeEqAccent "Jose" "JOSE" = true ∧
    localeEqAccent "Jose" "JOSÉ" = false ∧
    (dedupAdd [{ name := "Jose", deviceId := "dev", timestamp := "t1" }] "dev" "JOSE" "t2").2 =
      AddResult.duplicateName := by
  refine ⟨?_, by decide, by decide, by decide⟩
  intro entries dev nameRaw now h
  unfold dedupAdd
  by_cases h2 : entries.any (fun e => localeEqAccent e.name (jsTrim nameRaw)) = true
  · simp [h, h2]
  · simp [h, h2]

/-- C1 witness: the amended duplicate condition evaluated on a one-record
ledger and the candidate JOSE. -/
theorem c1_witness :
    jsTrim "JOSE" ≠ "" ∧
    ((dedupAdd [{ name := "Jose", deviceId := "dev", timestamp := "t1" }] "dev" "JOSE" "t2").2 =
        AddResult.duplicateName ↔
      ([{ name := "Jose", deviceId := "dev", timestamp := "t1" }] : List AttendanceEntry).any
          (fun e => localeEqAccent e.name (jsTrim "JOSE")) = true) :=
  ⟨by decide,
   c1_dedupCaseInsensitiveAccentSensitive.1
     [{ name := "Jose", deviceId := "dev", timestamp := "t1" }] "dev" "JOSE" "t2" (by decide)⟩

/-! C2 theorems. -/

/-- C2 counterexample: after unlocking with the correct PIN, selecting
scanner mode and scanning the raw JSON payload, the stored record carries the
ENTIRE raw string as its name (the scanner branch performs no parsing) and
the id of the scanning device rather than d1; the subsequent manual entry of
Ann is therefore NOT a duplicate and is appended, leaving two records, which
refutes the claimed single record with name Ann and deviceId d1. -/
theorem c2_counterexample :
    (AttV2.runEvs "1234" (AttV2.forceSelfMode (AttV2.initState "dev"))
        [AttV2.Ev.setPin "1234", AttV2.Ev.unlockClick, AttV2.Ev.selectScanner,
         AttV2.Ev.scan "\x7b\"name\":\"Ann\",\"deviceId\":\"d1\"\x7d" "t1",
         AttV2.Ev.setManual "Ann", AttV2.Ev.manualAdd "t2"]).entries =
      [{ name := "Ann", deviceId := "dev", timestamp := "t2" },
       { name := "\x7b\"name\":\"Ann\",\"deviceId\":\"d1\"\x7d", deviceId := "dev",
         timestamp := "t1" }] ∧
    (2 : Nat) ≠ 1 ∧
    ("\x7b\"name\":\"Ann\",\"deviceId\":\"d1\"\x7d" : String) ≠ "Ann" ∧
    ("dev" : String) ≠ "d1" := by
  decide

/-- C2 (amended): in the locked page, after unlocking with the correct PIN
and selecting scanner mode, handling the scan of the raw string containing
the Ann JSON payload appends one record whose name is that entire raw string
and whose deviceId is the id of the scanning device itself; a subsequent
manual entry of Ann is accepted as a new record rather than rejected, the
ledger then holds two records, and the descending listing shows the manual
record first. -/
theorem c2_endToEndFlow :
    (AttV2.runEvs "1234" (AttV2.forceSelfMode (AttV2.initState "dev"))
        [AttV2.Ev.setPin "1234", AttV2.Ev.unlockClick,
         AttV2.Ev.selectScanner]).organizerUnlocked = true ∧
    (AttV2.runEvs "1234" (AttV2.forceSelfMode (AttV2.initState "dev"))
        [AttV2.Ev.setPin "1234", AttV2.Ev.unlockClick,
         AttV2.Ev.selectScanner]).mode = AttV2.Mode.scanner ∧
    (AttV2.handleDecode
        (AttV2.runEvs "1234" (AttV2.forceSelfMode (AttV2.initState "dev"))
          [AttV2.Ev.setPin "1234", AttV2.Ev.unlockClick, AttV2.Ev.selectScanner])
        "\x7b\"name\":\"Ann\",\"deviceId\":\"d1\"\x7d" "t1").2 =
      AttV2.Outcome.ledger AddResult.added ∧
    (AttV2.handleDecode
        (AttV2.runEvs "1234" (AttV2.forceSelfMode (AttV2.initState "dev"))
          [AttV2.Ev.setPin "1234", AttV2.Ev.unlockClick, AttV2.Ev.selectScanner])
        "\x7b\"name\":\"Ann\",\"deviceId\":\"d1\"\x7d" "t1").1.entries =
      [{ name := "\x7b\"name\":\"Ann\",\"deviceId\":\"d1\"\x7d", deviceId := "dev",
         timestamp := "t1" }] ∧
    (AttV2.handleManualAdd
        (AttV2.runEvs "1234" (AttV2.forceSelfMode (AttV2.initState "dev"))
          [AttV2.Ev.setPin "1234", AttV2.Ev.unlockClick, AttV2.Ev.selectScanner,
           AttV2.Ev.scan "\x7b\"name\":\"Ann\",\"deviceId\":\"d1\"\x7d" "t1",
           AttV2.Ev.setManual "Ann"]) "t2").2 =
      AttV2.Outcome.ledger AddResult.added ∧
    sortedEntries
        (AttV2.runEvs "1234" (AttV2.forceSelfMode (AttV2.initState "dev"))
          [AttV2.Ev.setPin "1234", AttV2.Ev.unlockClick, AttV2.Ev.selectScanner,
           AttV2.Ev.scan "\x7b\"name\":\"Ann\",\"deviceId\":\"d1\"\x7d" "t1",
           AttV2.Ev.setManual "Ann", AttV2.Ev.manualAdd "t2"]).entries =
      [{ name := "Ann", deviceId := "dev", timestamp := "t2" },
       { name := "\x7b\"name\":\"Ann\",\"deviceId\":\"d1\"\x7d", deviceId := "dev",
         timestamp := "t1" }] := by
  decide

/-! C3 theorems. -/

/-- Scanning a concatenated key list tries the first list and falls through
to the second exactly when the first yields nothing. -/
theorem scanNameKeys_append (ks1 ks2 : List String) (fields : List (String × Jv)) :
    ScanLog.scanNameKeys (ks1 ++ ks2) fields =
      match ScanLog.scanNameKeys ks1 fields with
      | some n => some n
      | none => ScanLog.scanNameKeys ks2 fields := by
  induction ks1 with
  | nil => rfl
  | cons k ks ih =>
    simp only [List.cons_append, ScanLog.scanNameKeys]
    cases hv : lookupKey fields k with
    | none => exact ih
    | some v =>
      cases v with
      | jstr w =>
        by_cases hw : jsTrim w ≠ ""
        · simp [hw]
        · simp only [hw, if_false]
          exact ih
      | jnum n => exact ih
      | jbool b => exact ih
      | jnull => exact ih
      | jobj fs => exact ih
      | jarr xs => exact ih

/-- C3 counterexample: decoding the payload with firstName Ann and lastName
Lee yields the name Ann, not the space-joined Ann Lee the claim states,
because firstName is itself a member of the ordered candidate key list and
wins before the combination branch can run. The parsed argument is the
JSON.parse result of the raw literal. -/
theorem c3_counterexample :
    (ScanLog.parseDeviceIdFromQrPayload
        "\x7b\"firstName\":\"Ann\",\"lastName\":\"Lee\"\x7d"
        (some (Jv.jobj [("firstName", Jv.jstr "Ann"), ("lastName", Jv.jstr "Lee")]))).name =
      some "Ann" ∧
    (some "Ann" : Option String) ≠ some "Ann Lee" := by
  constructor
  · rfl
  · simp

/-- C3 (amended): the ordered candidate key list contains firstName and
lastName as ordinary members after the eight claimed keys, so whenever none
of the eight earlier keys yields a name and firstName holds a string with a
nonempty trim, decoding returns that trimmed firstName value alone; the
firstName-plus-lastName combination runs only when the whole ten-key scan,
firstName and lastName included, yields nothing. -/
theorem c3_firstNameWinsOverCombination (fields : List (String × Jv)) (f : String)
    (h8 : ScanLog.scanNameKeys
        ["name", "fullName", "studentName", "student_name", "ownerName", "owner",
         "userName", "username"] fields = none)
    (hf : lookupKey fields "firstName" = some (Jv.jstr f))
    (hne : jsTrim f ≠ "") :
    ScanLog.extractedName fields = some (jsTrim f) := by
  unfold ScanLog.extractedName
  have hsplit : ScanLog.nameCandidateKeys =
      ["name", "fullName", "studentName", "student_name", "ownerName", "owner",
       "userName", "username"] ++ ["firstName", "lastName"] := rfl
  rw [hsplit, scanNameKeys_append, h8]
  simp [ScanLog.scanNameKeys, hf, hne]

/-- C3 witness: the amended extraction evaluated on the Ann Lee payload. -/
theorem c3_witness :
    ScanLog.scanNameKeys
        ["name", "fullName", "studentName", "student_name", "ownerName", "owner",
         "userName", "username"]
        [("firstName", Jv.jstr "Ann"), ("lastName", Jv.jstr "Lee")] = none ∧
    lookupKey [("firstName", Jv.jstr "Ann"), ("lastName", Jv.jstr "Lee")] "firstName" =
      some (Jv.jstr "Ann") ∧
    jsTrim "Ann" ≠ "" ∧
    ScanLog.extractedName [("firstName", Jv.jstr "Ann"), ("lastName", Jv.jstr "Lee")] =
      some (jsTrim "Ann") :=
  ⟨rfl, rfl, by decide,
   c3_firstNameWinsOverCombination
     [("firstName", Jv.jstr "Ann"), ("lastName", Jv.jstr "Lee")] "Ann" rfl rfl (by decide)⟩

/-! C4 theorems. -/

/-- C4 counterexample: an immediately subsequent self-mode scan from the same
device is swallowed by the timed debounce flag and yields the silent
debounced outcome, not the already-checked-in rejection the claim promises
for every subsequent call. -/
theorem c4_counterexample :
    (AttV2.forceSelfMode (AttV2.initState "dev")).mode = AttV2.Mode.selfCheck ∧
    (AttV2.handleDecode (AttV2.forceSelfMode (AttV2.initState "dev")) "r1" "t1").2 =
      AttV2.Outcome.selfConfirmed ∧
    ((AttV2.handleDecode (AttV2.forceSelfMode (AttV2.initState "dev"))
          "r1" "t1").1).mode = AttV2.Mode.selfCheck ∧
    (AttV2.handleDecode (AttV2.handleDecode (AttV2.forceSelfMode (AttV2.initState "dev"))
          "r1" "t1").1 "r2" "t2").2 = AttV2.Outcome.debounced ∧
    AttV2.Outcome.debounced ≠ AttV2.Outcome.alreadyCheckedIn := by
  decide

/-- C4 (amended): in self mode, the first non-debounced scan of a device
whose attempt flag is clear yields the self confirmation and sets the flag;
every later non-debounced scan of that device yields the already-checked-in
rejection whatever the payload; a scan arriving while the debounce flag is
still set is dropped silently with no state change; and no self-mode scan
ever appends a record to the shared attendance ledger. -/
theorem c4_selfSingleAttempt :
    (∀ (s : AttV2.SessionState) (r now : String),
        s.mode = AttV2.Mode.selfCheck → s.justScanned = false →
        s.selfAttempted = false →
        (AttV2.handleDecode s r now).2 = AttV2.Outcome.selfConfirmed ∧
          (AttV2.handleDecode s r now).1.selfAttempted = true) ∧
    (∀ (s : AttV2.SessionState) (r now : String),
        s.mode = AttV2.Mode.selfCheck → s.justScanned = false →
        s.selfAttempted = true →
        (AttV2.handleDecode s r now).2 = AttV2.Outcome.alreadyCheckedIn) ∧
    (∀ (s : AttV2.SessionState) (r now : String),
        s.justScanned = true →
        AttV2.handleDecode s r now = (s, AttV2.Outcome.debounced)) ∧
    (∀ (s : AttV2.SessionState) (r now : String),
        s.mode = AttV2.Mode.selfCheck →
        (AttV2.handleDecode s r now).1.entries = s.entries) := by
  refine ⟨?_, ?_, ?_, ?_⟩
  · intro s r now hm hj ha
    simp [AttV2.handleDecode, hm, hj, ha]
  · intro s r now hm hj ha
    simp [AttV2.handleDecode, hm, hj, ha]
  · intro s r now hj
    simp [AttV2.handleDecode, hj]
  · intro s r now hm
    by_cases hj : s.justScanned
    · simp [AttV2.handleDecode, hj]
    · by_cases ha : s.selfAttempted
      · simp [AttV2.handleDecode, hm, hj, ha]
      · simp [AttV2.handleDecode, hm, hj, ha]

/-- C4 witness: the amended single-attempt behaviour evaluated on the mount
state of a device and on the states with the flag set or the debounce
pending. -/
theorem c4_witness :
    ((AttV2.handleDecode (AttV2.forceSelfMode (AttV2.initState "dev")) "raw" "t").2 =
        AttV2.Outcome.selfConfirmed ∧
      (AttV2.handleDecode (AttV2.forceSelfMode (AttV2.initState "dev")) "raw" "t").1.selfAttempted =
        true) ∧
    (AttV2.handleDecode
        { AttV2.forceSelfMode (AttV2.initState "dev") with selfAttempted := true }
        "raw" "t").2 = AttV2.Outcome.alreadyCheckedIn ∧
    AttV2.handleDecode
        { AttV2.forceSelfMode (AttV2.initState "dev") with justScanned := true }
        "raw" "t" =
      ({ AttV2.forceSelfMode (AttV2.initState "dev") with justScanned := true },
       AttV2.Outcome.debounced) ∧
    (AttV2.handleDecode (AttV2.forceSelfMode (AttV2.initState "dev")) "raw" "t").1.entries =
      (AttV2.forceSelfMode (AttV2.initState "dev")).entries :=
  ⟨c4_selfSingleAttempt.1 (AttV2.forceSelfMode (AttV2.initState "dev")) "raw" "t"
      (by decide) (by decide) (by decide),
   c4_selfSingleAttempt.2.1
      { AttV2.forceSelfMode (AttV2.initState "dev") with selfAttempted := true } "raw" "t"
      (by decide) (by decide) (by decide),
   c4_selfSingleAttempt.2.2.1
      { AttV2.forceSelfMode (AttV2.initState "dev") with justScanned := true } "raw" "t"
      (by decide),
   c4_selfSingleAttempt.2.2.2 (AttV2.forceSelfMode (AttV2.initState "dev")) "raw" "t"
      (by decide)⟩

/-! C5 theorems. -/

/-- C5 counterexample: a manual-entry call with a blank input field while the
lock is engaged returns through the silent blank-input branch, producing no
unauthorized outcome at all, which refutes the claim that EVERY manual-entry
call under the engaged lock yields the locked rejection. -/
theorem c5_counterexample :
    (AttV2.forceSelfMode (AttV2.initState "dev")).organizerUnlocked = false ∧
    (AttV2.handleManualAdd (AttV2.forceSelfMode (AttV2.initState "dev")) "t").2 =
      AttV2.Outcome.emptyManual ∧
    AttV2.Outcome.emptyManual ≠ AttV2.Outcome.lockedError ∧
    (AttV2.handleManualAdd (AttV2.forceSelfMode (AttV2.initState "dev")) "t").1 =
      AttV2.forceSelfMode (AttV2.initState "dev") := by
  decide

/-- C5 (amended): while the lock is engaged, every manual-entry call whose
input trims to a nonempty name yields the locked rejection, and every
non-debounced scanner-mode scan yields the locked rejection; a blank manual
input returns silently instead; and in all cases, blank or debounced
included, no call made under the engaged lock ever changes the ledger. -/
theorem c5_lockGating :
    (∀ (s : AttV2.SessionState) (now : String),
        jsTrim s.manualName ≠ "" → s.organizerUnlocked = false →
        (AttV2.handleManualAdd s now).2 = AttV2.Outcome.lockedError ∧
          (AttV2.handleManualAdd s now).1.entries = s.entries) ∧
    (∀ (s : AttV2.SessionState) (r now : String),
        s.mode = AttV2.Mode.scanner → s.justScanned = false →
        s.organizerUnlocked = false →
        (AttV2.handleDecode s r now).2 = AttV2.Outcome.lockedError ∧
          (AttV2.handleDecode s r now).1.entries = s.entries) ∧
    (∀ (s : AttV2.SessionState) (now : String),
        s.organizerUnlocked = false →
        (AttV2.handleManualAdd s now).1.entries = s.entries) ∧
    (∀ (s : AttV2.SessionState) (r now : String),
        s.organizerUnlocked = false →
        (AttV2.handleDecode s r now).1.entries = s.entries) := by
  refine ⟨?_, ?_, ?_, ?_⟩
  · intro s now hm hu
    simp [AttV2.handleManualAdd, hm, hu]
  · intro s r now hmode hj hu
    simp [AttV2.handleDecode, hmode, hj, hu]
  · intro s now hu
    by_cases hm : jsTrim s.manualName = ""
    · simp [AttV2.handleManualAdd, hm]
    · simp [AttV2.handleManualAdd, hm, hu]
  · intro s r now hu
    by_cases hj : s.justScanned
    · simp [AttV2.handleDecode, hj]
    · cases hmode : s.mode with
      | scanner => simp [AttV2.handleDecode, hj, hmode, hu]
      | selfCheck =>
        by_cases ha : s.selfAttempted
        · simp [AttV2.handleDecode, hj, hmode, ha]
        · simp [AttV2.handleDecode, hj, hmode, ha]

/-- C5 witness: the amended lock gating evaluated on a locked state carrying
the manual input Ann and on a locked scanner-mode state. -/
theorem c5_witness :
    jsTrim "Ann" ≠ "" ∧
    ((AttV2.handleManualAdd
          { AttV2.forceSelfMode (AttV2.initState "dev") with manualName := "Ann" } "t").2 =
        AttV2.Outcome.lockedError ∧
      (AttV2.handleManualAdd
          { AttV2.forceSelfMode (AttV2.initState "dev") with manualName := "Ann" } "t").1.entries =
        ({ AttV2.forceSelfMode (AttV2.initState "dev") with manualName := "Ann" } :
          AttV2.SessionState).entries) ∧
    ((AttV2.handleDecode
          { AttV2.forceSelfMode (AttV2.initState "dev") with mode := AttV2.Mode.scanner }
          "raw" "t").2 = AttV2.Outcome.lockedError ∧
      (AttV2.handleDecode
          { AttV2.forceSelfMode (AttV2.initState "dev") with mode := AttV2.Mode.scanner }
          "raw" "t").1.entries =
        ({ AttV2.forceSelfMode (AttV2.initState "dev") with mode := AttV2.Mode.scanner } :
          AttV2.SessionState).entries) :=
  ⟨by decide,
   c5_lockGating.1
     { AttV2.forceSelfMode (AttV2.initState "dev") with manualName := "Ann" } "t"
     (by decide) (by decide),
   c5_lockGating.2.1
     { AttV2.forceSelfMode (AttV2.initState "dev") with mode := AttV2.Mode.scanner }
     "raw" "t" (by decide) (by decide) (by decide)⟩

/-! C10 theorems. -/

/-- C10: self-mode scans ignore the payload entirely: from any state in self
mode, two handleDecode calls with arbitrary different raw strings return the
same state and the same outcome, and even a garbage payload consumes the
single self check-in attempt of the device. -/
theorem c10_selfIgnoresPayload :
    (∀ (s : AttV2.SessionState) (r1 r2 now : String),
        s.mode = AttV2.Mode.selfCheck →
        AttV2.handleDecode s r1 now = AttV2.handleDecode s r2 now) ∧
    (∀ (s : AttV2.SessionState) (r now : String),
        s.mode = AttV2.Mode.selfCheck → s.justScanned = false →
        s.selfAttempted = false →
        (AttV2.handleDecode s r now).1.selfAttempted = true) := by
  constructor
  · intro s r1 r2 now hm
    by_cases hj : s.justScanned
    · simp [AttV2.handleDecode, hj]
    · by_cases ha : s.selfAttempted
      · simp [AttV2.handleDecode, hj, hm, ha]
      · simp [AttV2.handleDecode, hj, hm, ha]
  · intro s r now hm hj ha
    simp [AttV2.handleDecode, hj, hm, ha]

/-- C10 witness: a garbage payload and the empty payload behave identically
on the mount state of a device in self mode, and the garbage payload consumes
the single attempt. -/
theorem c10_witness :
    AttV2.handleDecode (AttV2.forceSelfMode (AttV2.initState "dev")) "%%garbage%%" "t" =
      AttV2.handleDecode (AttV2.forceSelfMode (AttV2.initState "dev")) "" "t" ∧
    (AttV2.handleDecode (AttV2.forceSelfMode (AttV2.initState "dev"))
        "%%garbage%%" "t").1.selfAttempted = true :=
  ⟨c10_selfIgnoresPayload.1 (AttV2.forceSelfMode (AttV2.initState "dev"))
      "%%garbage%%" "" "t" (by decide),
   c10_selfIgnoresPayload.2 (AttV2.forceSelfMode (AttV2.initState "dev"))
      "%%garbage%%" "t" (by decide) (by decide) (by decide)⟩

/-! C6 theorems. -/

/-- Any decode event that is not discarded by the debounce guard records its
own text and arrival time as the new last-seen pair. -/
theorem handleDecoded_marks (s : ScanLog.ScanState) (text : String)
    (parsed : Option Jv) (now : Nat)
    (h : (ScanLog.handleDecoded s text parsed now).2 ≠ ScanLog.ScanOutcome.debounced) :
    (ScanLog.handleDecoded s text parsed now).1.lastRaw = text ∧
      (ScanLog.handleDecoded s text parsed now).1.lastTime = now := by
  by_cases hg : s.lastRaw = text ∧ now - s.lastTime < 1500
  · exact absurd (by simp [ScanLog.handleDecoded, hg]) h
  · simp only [ScanLog.handleDecoded, if_neg hg]
    by_cases h1 : (ScanLog.parseDeviceIdFromQrPayload text parsed).deviceId = ""
    · simp [h1]
    · by_cases h2 : ({ s with lastRaw := text, lastTime := now } :
          ScanLog.ScanState).scannedItems.any
            (fun i => i.deviceId == (ScanLog.parseDeviceIdFromQrPayload text parsed).deviceId)
      · simp [h1, h2]
      · simp [h1, h2]

/-- C6 counterexample: in the stream x at 0 ms, y at 100 ms, x at 200 ms, the
two identical x events arrive 200 ms apart, well inside the 1500 ms window,
yet the second of them is NOT discarded silently: the guard only remembers
the immediately preceding payload y, so the second x is processed and yields
a duplicate rejection outcome, a second reconciliation outcome for the pair. -/
theorem c6_counterexample :
    (ScanLog.runScanEvents ScanLog.initScanState
        [{ text := "x", parsed := none, time := 0 },
         { text := "y", parsed := none, time := 100 },
         { text := "x", parsed := none, time := 200 }]).2 =
      [ScanLog.ScanOutcome.saved, ScanLog.ScanOutcome.saved,
       ScanLog.ScanOutcome.duplicate] ∧
    ScanLog.ScanOutcome.duplicate ≠ ScanLog.ScanOutcome.debounced ∧
    (ScanLog.runScanEvents ScanLog.initScanState
        [{ text := "x", parsed := none, time := 0 },
         { text := "y", parsed := none, time := 100 },
         { text := "x", parsed := none, time := 200 }]).1.statusMessage =
      "Duplicate ignored: x" ∧
    (200 : Nat) - 0 < 1500 := by
  refine ⟨rfl, by decide, rfl, by decide⟩

/-- C6 (amended): the debounce guard compares an incoming decode event only
against the immediately preceding processed event: whenever an event is not
itself discarded, a following event carrying the same raw text that arrives
within 1500 ms of it is discarded silently, with no state change and no
reconciliation outcome, so such a back-to-back identical pair produces
exactly one outcome; an intervening different payload resets the guard. -/
theorem c6_debounceConsecutivePair (s : ScanLog.ScanState) (text : String)
    (p1 p2 : Option Jv) (now1 now2 : Nat)
    (h1 : (ScanLog.handleDecoded s text p1 now1).2 ≠ ScanLog.ScanOutcome.debounced)
    (h2 : now2 - now1 < 1500) :
    ScanLog.handleDecoded (ScanLog.handleDecoded s text p1 now1).1 text p2 now2 =
      ((ScanLog.handleDecoded s text p1 now1).1, ScanLog.ScanOutcome.debounced) := by
  obtain ⟨hr, ht⟩ := handleDecoded_marks s text p1 now1 h1
  generalize hS : (ScanLog.handleDecoded s text p1 now1).1 = s1 at hr ht ⊢
  unfold ScanLog.handleDecoded
  rw [if_pos ⟨hr, by rw [ht]; exact h2⟩]

/-- C6 witness: a pair of identical events 100 ms apart from the mount state,
the first processed and the second discarded silently. -/
theorem c6_witness :
    (ScanLog.handleDecoded ScanLog.initScanState "x" none 0).2 ≠
      ScanLog.ScanOutcome.debounced ∧
    (100 : Nat) - 0 < 1500 ∧
    ScanLog.handleDecoded (ScanLog.handleDecoded ScanLog.initScanState "x" none 0).1
        "x" none 100 =
      ((ScanLog.handleDecoded ScanLog.initScanState "x" none 0).1,
       ScanLog.ScanOutcome.debounced) :=
  ⟨by decide, by decide,
   c6_debounceConsecutivePair ScanLog.initScanState "x" none none 0 100
     (by decide) (by decide)⟩

/-! C7 theorems. -/

/-- Characters with equal code points are equal. -/
theorem char_eq_of_toNat_eq {a b : Char} (h : a.toNat = b.toNat) : a = b := by
  unfold Char.toNat at h
  exact Char.eq_of_val_eq (UInt32.toNat.inj h)

/-- The lexicographic comparison is irreflexive. -/
theorem lexLt_irrefl : ∀ x : List Char, lexLt x x = false
  | [] => rfl
  | a :: as => by simp [lexLt, lexLt_irrefl as]

/-- The lexicographic comparison is transitive. -/
theorem lexLt_trans : ∀ x y z : List Char,
    lexLt x y = true → lexLt y z = true → lexLt x z = true
  | [], [], _ => by simp [lexLt]
  | [], _ :: _, [] => by simp [lexLt]
  | [], _ :: _, _ :: _ => by simp [lexLt]
  | _ :: _, [], _ => by simp [lexLt]
  | _ :: _, _ :: _, [] => by simp [lexLt]
  | a :: as, b :: bs, c :: cs => by
    simp only [lexLt]
    by_cases hab : a.toNat < b.toNat
    · by_cases hbc : b.toNat < c.toNat
      · intro _ _
        rw [if_pos (Nat.lt_trans hab hbc)]
      · rw [if_neg hbc]
        by_cases hcb : c.toNat < b.toNat
        · intro _ hfalse
          exact absurd hfalse (by simp [if_pos hcb])
        · rw [if_neg hcb]
          intro _ _
          have hbceq : b.toNat = c.toNat := by omega
          rw [if_pos (hbceq ▸ hab)]
    · rw [if_neg hab]
      by_cases hba : b.toNat < a.toNat
      · intro hfalse
        exact absurd hfalse (by simp [if_pos hba])
      · rw [if_neg hba]
        have habeq : a.toNat = b.toNat := by omega
        by_cases hbc : b.toNat < c.toNat
        · intro _ _
          rw [if_pos (habeq ▸ hbc)]
        · rw [if_neg hbc]
          by_cases hcb : c.toNat < b.toNat
          · intro _ hfalse
            exact absurd hfalse (by simp [if_pos hcb])
          · rw [if_neg hcb]
            intro h1 h2
            rw [if_neg (habeq ▸ hbc), if_neg (fun hca => hcb (habeq ▸ hca))]
            exact lexLt_trans as bs cs h1 h2

/-- Two lists on which the lexicographic comparison fails both ways are
equal. -/
theorem lexLt_eq_of_not : ∀ x y : List Char,
    lexLt x y = false → lexLt y x = false → x = y
  | [], [], _, _ => rfl
  | [], _ :: _, h1, _ => by simp [lexLt] at h1
  | _ :: _, [], _, h2 => by simp [lexLt] at h2
  | a :: as, b :: bs, h1, h2 => by
    simp only [lexLt] at h1 h2
    by_cases hab : a.toNat < b.toNat
    · rw [if_pos hab] at h1
      exact absurd h1 (by simp)
    · by_cases hba : b.toNat < a.toNat
      · rw [if_pos hba] at h2
        exact absurd h2 (by simp)
      · rw [if_neg hab, if_neg hba] at h1
        rw [if_neg hba, if_neg hab] at h2
        have habeq : a = b :=
          char_eq_of_toNat_eq (by omega)
        rw [habeq, lexLt_eq_of_not as bs h1 h2]

/-- The presentation order is total. -/
theorem tsGe_total : ∀ a b : AttendanceEntry, tsGe a b ∨ tsGe b a := by
  intro a b
  by_cases h : strLtB a.timestamp b.timestamp = false
  · exact Or.inl h
  · refine Or.inr ?_
    have h1 : lexLt a.timestamp.data b.timestamp.data = true := by
      revert h
      unfold strLtB
      cases lexLt a.timestamp.data b.timestamp.data <;> simp
    unfold tsGe strLtB
    cases h2 : lexLt b.timestamp.data a.timestamp.data
    · rfl
    · have := lexLt_trans _ _ _ h1 h2
      rw [lexLt_irrefl] at this
      exact absurd this (by simp)

/-- The presentation order is transitive. -/
theorem tsGe_trans : ∀ a b c : AttendanceEntry, tsGe a b → tsGe b c → tsGe a c := by
  intro a b c hab hbc
  unfold tsGe strLtB at hab hbc ⊢
  cases hac : lexLt a.timestamp.data c.timestamp.data
  · rfl
  · exfalso
    have hba : b.timestamp.data = a.timestamp.data ∨ lexLt b.timestamp.data a.timestamp.data = true := by
      cases hx : lexLt b.timestamp.data a.timestamp.data
      · exact Or.inl (lexLt_eq_of_not _ _ hx hab)
      · exact Or.inr rfl
    have hcb : c.timestamp.data = b.timestamp.data ∨ lexLt c.timestamp.data b.timestamp.data = true := by
      cases hx : lexLt c.timestamp.data b.timestamp.data
      · exact Or.inl (lexLt_eq_of_not _ _ hx hbc)
      · exact Or.inr rfl
    rcases hba with hba | hba <;> rcases hcb with hcb | hcb
    · rw [hcb, hba] at hac
      rw [lexLt_irrefl] at hac
      cases hac
    · rw [hba] at hcb
      have := lexLt_trans _ _ _ hac hcb
      rw [lexLt_irrefl] at this
      cases this
    · rw [hcb] at hac
      have := lexLt_trans _ _ _ hac hba
      rw [lexLt_irrefl] at this
      cases this
    · have h1 := lexLt_trans _ _ _ hac hcb
      have h2 := lexLt_trans _ _ _ h1 hba
      rw [lexLt_irrefl] at h2
      cases h2

/-- Inserting a record whose timestamp equals t places it in front of every
other record with timestamp t already in the list: every record the insertion
walks past is strictly later, hence filtered out. -/
theorem filter_orderedInsert_eq (x : AttendanceEntry) (t : String)
    (hx : x.timestamp = t) :
    ∀ l : List AttendanceEntry,
      (List.orderedInsert tsGe x l).filter (fun e => e.timestamp == t) =
        x :: l.filter (fun e => e.timestamp == t)
  | [] => by simp [List.orderedInsert, hx]
  | y :: ys => by
    by_cases h : tsGe x y
    · simp [List.orderedInsert, if_pos h, hx]
    · have hyt : y.timestamp ≠ t := by
        intro he
        apply h
        unfold tsGe strLtB
        rw [show y.timestamp = x.timestamp from he.trans hx.symm]
        exact lexLt_irrefl _
      simp [List.orderedInsert, if_neg h, hyt, filter_orderedInsert_eq x t hx ys]

/-- Inserting a record whose timestamp differs from t leaves the records with
timestamp t unchanged and in order. -/
theorem filter_orderedInsert_ne (x : AttendanceEntry) (t : String)
    (hx : x.timestamp ≠ t) :
    ∀ l : List AttendanceEntry,
      (List.orderedInsert tsGe x l).filter (fun e => e.timestamp == t) =
        l.filter (fun e => e.timestamp == t)
  | [] => by simp [List.orderedInsert, hx]
  | y :: ys => by
    by_cases h : tsGe x y
    · simp [List.orderedInsert, if_pos h, hx]
    · by_cases hy : y.timestamp = t
      · simp [List.orderedInsert, if_neg h, hy, filter_orderedInsert_ne x t hx ys]
      · simp [List.orderedInsert, if_neg h, hy, filter_orderedInsert_ne x t hx ys]

/-- The insertion sort under the presentation order is stable: the records
carrying any fixed timestamp appear in the output in exactly their input
order. -/
theorem filter_insertionSort (t : String) :
    ∀ l : List AttendanceEntry,
      (List.insertionSort tsGe l).filter (fun e => e.timestamp == t) =
        l.filter (fun e => e.timestamp == t)
  | [] => rfl
  | x :: xs => by
    show ((List.insertionSort tsGe xs).orderedInsert tsGe x).filter
        (fun e => e.timestamp == t) = _
    by_cases hx : x.timestamp = t
    · rw [filter_orderedInsert_eq x t hx, filter_insertionSort t xs]
      simp [hx]
    · rw [filter_orderedInsert_ne x t hx, filter_insertionSort t xs]
      simp [hx]

/-- C7: the presented sequence is sorted descending by timestamp under the
lexicographic order of the ISO timestamp strings, it is a permutation of the
stored ledger, the sort is stable in the sense that the records sharing any
timestamp keep their stored relative order, and since addEntry prepends, a
freshly accepted record appears FIRST among the records sharing its
timestamp, that is most-recent-insert-first. -/
theorem c7_listDescendingStable :
    (∀ l : List AttendanceEntry, List.Sorted tsGe (sortedEntries l)) ∧
    (∀ l : List AttendanceEntry, List.Perm (sortedEntries l) l) ∧
    (∀ (l : List AttendanceEntry) (t : String),
        (sortedEntries l).filter (fun e => e.timestamp == t) =
          l.filter (fun e => e.timestamp == t)) ∧
    (∀ (l : List AttendanceEntry) (dev nameRaw now : String),
        (dedupAdd l dev nameRaw now).2 = AddResult.added →
        (sortedEntries (dedupAdd l dev nameRaw now).1).filter
            (fun e => e.timestamp == now) =
          { name := jsTrim nameRaw, deviceId := dev, timestamp := now } ::
            l.filter (fun e => e.timestamp == now)) := by
  haveI : IsTotal AttendanceEntry tsGe := ⟨tsGe_total⟩
  haveI : IsTrans AttendanceEntry tsGe := ⟨tsGe_trans⟩
  refine ⟨?_, ?_, ?_, ?_⟩
  · intro l
    exact List.sorted_insertionSort tsGe l
  · intro l
    exact List.perm_insertionSort tsGe l
  · intro l t
    exact filter_insertionSort t l
  · intro l dev nameRaw now h
    rw [dedupAdd_added_eq l dev nameRaw now h]
    show ((List.insertionSort tsGe l).orderedInsert tsGe
        { name := jsTrim nameRaw, deviceId := dev, timestamp := now }).filter
          (fun e => e.timestamp == now) = _
    rw [filter_orderedInsert_eq _ now rfl, filter_insertionSort now l]

/-- C7 witness: the stability statement evaluated on an accepted submission
into the empty ledger. -/
theorem c7_witness :
    (dedupAdd [] "dev" "Ann" "t").2 = AddResult.added ∧
    (sortedEntries (dedupAdd [] "dev" "Ann" "t").1).filter
        (fun e => e.timestamp == "t") =
      { name := jsTrim "Ann", deviceId := "dev", timestamp := "t" } ::
        ([] : List AttendanceEntry).filter (fun e => e.timestamp == "t") :=
  ⟨by decide, c7_listDescendingStable.2.2.2 [] "dev" "Ann" "t" (by decide)⟩

/-! C8 theorems. -/

/-- After the mode-forcing effect has run, an engaged lock implies self
mode. -/
theorem forceSelfMode_inv (s : AttV2.SessionState)
    (hu : (AttV2.forceSelfMode s).organizerUnlocked = false) :
    (AttV2.forceSelfMode s).mode = AttV2.Mode.selfCheck := by
  by_cases h : ¬ s.organizerUnlocked ∧ s.mode = AttV2.Mode.scanner
  · simp [AttV2.forceSelfMode, h]
  · simp only [AttV2.forceSelfMode, if_neg h] at hu ⊢
    cases hm : s.mode with
    | scanner => exact absurd ⟨by simp [hu], hm⟩ h
    | selfCheck => rfl

/-- C8 counterexample: the initial state that the page mounts with, before
any effect or user action has run, selects scanner mode while the organizer
lock is engaged, contradicting the claim that the invariant covers the
initial state. -/
theorem c8_counterexample :
    (AttV2.initState "dev").mode = AttV2.Mode.scanner ∧
    (AttV2.initState "dev").organizerUnlocked = false ∧
    AttV2.Mode.scanner ≠ AttV2.Mode.selfCheck := by
  decide

/-- C8 (amended): in every session state observable after the mode-forcing
effect has settled, that is the mount state after its first effect pass and
every state reached from it by user or timer events, an engaged organizer
lock implies self check-in mode; the raw pre-effect initial state instead
holds scanner mode with the lock engaged for one render. -/
theorem c8_modeLockInvariant (pin d : String) (s : AttV2.SessionState)
    (h : AttV2.Reachable pin d s) (hu : s.organizerUnlocked = false) :
    s.mode = AttV2.Mode.selfCheck := by
  revert hu
  induction h with
  | init => exact fun hu => forceSelfMode_inv _ hu
  | step s0 ev h0 ih => exact fun hu => forceSelfMode_inv _ hu

/-- C8 witness: the invariant evaluated at the post-effect mount state. -/
theorem c8_witness :
    AttV2.Reachable "1234" "dev" (AttV2.forceSelfMode (AttV2.initState "dev")) ∧
    (AttV2.forceSelfMode (AttV2.initState "dev")).organizerUnlocked = false ∧
    (AttV2.forceSelfMode (AttV2.initState "dev")).mode = AttV2.Mode.selfCheck :=
  ⟨AttV2.Reachable.init, by decide,
   c8_modeLockInvariant "1234" "dev" _ AttV2.Reachable.init (by decide)⟩

/-! C9 theorems. -/

/-- C9: in the name-keyed ledger variant, every record addEntry appends
carries the id of the scanning device itself (the payload device id is not
even an input of addEntry); the set of stored device ids therefore stays the
set of scanner ids, and the already-checked-in device check, which compares
the incoming payload device id against the stored ids, never rejects a
payload whose device id differs from the id of the scanning device. -/
theorem c9_scannerOwnDeviceId :
    (∀ (entries : List AttendanceEntry) (dev nameRaw now : String),
        (dedupAdd entries dev nameRaw now).2 = AddResult.added →
        (dedupAdd entries dev nameRaw now).1 =
          { name := jsTrim nameRaw, deviceId := dev, timestamp := now } :: entries) ∧
    (∀ (s : AttV1.SessionState) (result : String) (parsed : Option Jv) (now : String),
        (∀ e ∈ s.entries, e.deviceId = s.deviceId) →
        ∀ e ∈ (AttV1.handleDecode s result parsed now).1.entries,
          e.deviceId = s.deviceId) ∧
    (∀ (s : AttV1.SessionState) (result : String) (parsed : Option Jv) (now : String),
        (∀ e ∈ s.entries, e.deviceId = s.deviceId) →
        AttV1.incomingDeviceIdOf parsed ≠ s.deviceId →
        (AttV1.handleDecode s result parsed now).2 ≠ AttV1.Outcome.deviceAlready) := by
  refine ⟨dedupAdd_added_eq, ?_, ?_⟩
  · intro s result parsed now hinv
    by_cases hj : s.justScanned
    · simpa [AttV1.handleDecode, hj] using hinv
    · by_cases hn : AttV1.incomingNameOf result parsed = ""
      · simpa [AttV1.handleDecode, hj, hn] using hinv
      · by_cases hd : ¬ AttV1.incomingDeviceIdOf parsed = "" ∧
            ∃ x ∈ s.entries, x.deviceId = AttV1.incomingDeviceIdOf parsed
        · simpa [AttV1.handleDecode, hj, hn, hd] using hinv
        · intro e he
          have he2 : e ∈ (dedupAdd s.entries s.deviceId
              (AttV1.incomingNameOf result parsed) now).1 := by
            simpa [AttV1.handleDecode, hj, hn, hd, AttV1.addEntryR] using he
          rcases dedupAdd_mem _ _ _ _ _ he2 with h1 | h1
          · rw [h1]
          · exact hinv e h1
  · intro s result parsed now hinv hne
    by_cases hj : s.justScanned
    · simp [AttV1.handleDecode, hj]
    · by_cases hn : AttV1.incomingNameOf result parsed = ""
      · simp [AttV1.handleDecode, hj, hn]
      · have hdev : ¬ (¬ AttV1.incomingDeviceIdOf parsed = "" ∧
            ∃ x ∈ s.entries, x.deviceId = AttV1.incomingDeviceIdOf parsed) := by
          rintro ⟨_, e, hme, heq⟩
          exact hne (heq.symm.trans (hinv e hme))
        simp [AttV1.handleDecode, hj, hn, hdev]

/-- C9 witness: a scanned payload claiming a foreign device id against a
one-record ledger written by the scanning device is not rejected by the
device check, and the ledger invariant is preserved. -/
theorem c9_witness :
    ((dedupAdd [] "dev" "Bob" "t").2 = AddResult.added →
      (dedupAdd [] "dev" "Bob" "t").1 =
        [{ name := jsTrim "Bob", deviceId := "dev", timestamp := "t" }]) ∧
    (AttV1.handleDecode
        { entries := [{ name := "Ann", deviceId := "dev", timestamp := "t0" }],
          manualName := "", scanError := none, infoMessage := none,
          justScanned := false, deviceId := "dev" }
        "raw" (some (Jv.jobj [("name", Jv.jstr "Bob"), ("deviceId", Jv.jstr "other")]))
        "t1").2 ≠ AttV1.Outcome.deviceAlready :=
  ⟨fun h => by rw [dedupAdd_added_eq [] "dev" "Bob" "t" h],
   c9_scannerOwnDeviceId.2.2
     { entries := [{ name := "Ann", deviceId := "dev", timestamp := "t0" }],
       manualName := "", scanError := none, infoMessage := none,
       justScanned := false, deviceId := "dev" }
     "raw" (some (Jv.jobj [("name", Jv.jstr "Bob"), ("deviceId", Jv.jstr "other")])) "t1"
     (by decide) (by decide)⟩
